import Mathlib

/-!
# Verification of the Reservations dashboard data pipeline (src/app.py)

Shallow embedding of the load-and-normalize pipeline, the filter engine,
the KPI aggregation and the insight derivation of `src/app.py`.

Modelling conventions:
* Calendar dates are day numbers (`ℤ`), per the data model (calendar dates);
  date arithmetic `(departure - arrival).dt.days` becomes integer subtraction.
* Monetary amounts and all KPI values are `ℚ` (pandas floats, exact here).
* `pandas.Series.mean` on an empty series yields NaN; this is modelled as
  `Option ℚ` with `none` for NaN.
* `Series.idxmax` / `idxmin` raise `ValueError` on an empty grouped series;
  this is modelled as `Option` with `none` for the raise.
* `st.error` + `st.stop` (abort with a user-facing diagnostic) is modelled as
  an error result `LoadOutcome.error`; no incomplete table escapes an error.
* Header title-casing (`str.title`) is modelled for ASCII letters: a letter
  following a non-letter is upper-cased, any other letter lower-cased.
* The calendar bucket columns `Month`, `Year`, `Weekday` are fed only to the
  chart layer and are not modelled.
-/

namespace ReservationsApp

/-! ## Header normalization (src/app.py line 116) -/

/-- Python `str.title` on a char list: a letter that follows a non-letter is
upper-cased, every other letter is lower-cased, non-letters pass through.
The boolean argument records whether the previous char was a letter. -/
def titleChars : List Char → Bool → List Char
  | [], _ => []
  | c :: cs, prevAlpha =>
    if c.isAlpha then
      (if prevAlpha then c.toLower else c.toUpper) :: titleChars cs true
    else
      c :: titleChars cs false

/-- Title-casing of a whole string, Python `str.title`. -/
def titleCase (s : String) : String := ⟨titleChars s.data false⟩

/-- Whitespace stripping, `str.strip`, on a char list: drop leading and
trailing whitespace. -/
def stripChars (l : List Char) : List Char :=
  ((l.dropWhile Char.isWhitespace).reverse.dropWhile Char.isWhitespace).reverse

/-- Whitespace stripping, `str.strip`, on a string. -/
def stripString (s : String) : String := ⟨stripChars s.data⟩

/-- Header normalization, `df.columns.str.strip().str.title()`: strip
whitespace, then title-case. -/
def normalizeHeader (s : String) : String := titleCase (stripString s)

/-! ## Alias table and column resolution (src/app.py lines 119-151) -/

/-- The alias dictionary of `load_dataframe`: canonical concept name paired
with its priority-ordered list of accepted synonyms. -/
def aliases : List (String × List String) :=
  [("Arrival Date",   ["Arrival Date", "Arrival", "Check-In", "Data De Chegada", "Checkin"]),
   ("Departure Date", ["Departure Date", "Departure", "Check-Out", "Data De Saída", "Checkout"]),
   ("Daily Rate",     ["Daily Rate", "Adr", "Tarifa Diária", "Rate", "Price"]),
   ("Room Type",      ["Room Type", "Type", "Tipo De Quarto", "Category"]),
   ("No Of Guests",   ["No Of Guests", "Guests", "Hóspedes", "Pax"]),
   ("Room",           ["Room", "Room Number", "Quarto", "Número Do Quarto"])]

/-- The helper `first_present`: the first synonym that occurs among the
(normalized) columns, or `none`. -/
def first_present (cols : List String) (possible : List String) : Option String :=
  possible.find? (fun c => cols.contains c)

/-- The `column_mapping` built by the resolution loop: for each concept whose
alias list has a match, the pair (matched column, canonical name). -/
def column_mapping (cols : List String) : List (String × String) :=
  aliases.filterMap (fun p => (first_present cols p.2).map (fun c => (c, p.1)))

/-- The `missing_columns` list built by the resolution loop: the canonical
concepts whose alias list has no match among the columns. -/
def missing_columns (cols : List String) : List String :=
  (aliases.filter (fun p => (first_present cols p.2).isNone)).map Prod.fst

/-- Load-stage failure conditions surfaced via `st.error` + `st.stop`.
`missingColumns` carries the unmatched concepts and the headers present. -/
inductive LoadError where
  | missingColumns (missing : List String) (available : List String)
deriving DecidableEq, Repr

/-- Result of a fallible load stage (`st.stop` aborts the render pass). -/
inductive LoadOutcome (α : Type) where
  | ok (a : α)
  | error (e : LoadError)
deriving DecidableEq, Repr

/-- Column resolution (src/app.py lines 134-151): if any concept is
unmatched, abort with the diagnostic naming every unmatched concept and the
available columns; otherwise return the rename mapping. -/
def resolveColumns (cols : List String) : LoadOutcome (List (String × String)) :=
  if missing_columns cols = [] then .ok (column_mapping cols)
  else .error (.missingColumns (missing_columns cols) cols)

/-- Renaming, `df.rename(columns=column_mapping)`, restricted to the header list. -/
def renameHeaders (m : List (String × String)) (cols : List String) : List String :=
  cols.map (fun c => ((m.find? (fun p => p.1 == c)).map Prod.snd).getD c)

/-! ## Rows and the load pipeline (src/app.py lines 153-182) -/

/-- A row after renaming and date parsing, before validation and derivation.
Dates are day numbers. -/
structure RawRow where
  arrival : ℤ
  departure : ℤ
  rate : ℚ
  roomType : String
  guests : ℤ
  room : ℤ
deriving DecidableEq, Repr

/-- A row of the Canonical Table: the raw fields plus the derived columns
`Nights` and `Revenue` (lines 171-172). -/
structure Row where
  arrival : ℤ
  departure : ℤ
  rate : ℚ
  roomType : String
  guests : ℤ
  room : ℤ
  nights : ℤ
  revenue : ℚ
deriving DecidableEq, Repr

/-- Lines 171-172: `Nights = (Departure - Arrival).dt.days`,
`Revenue = Daily Rate * Nights`. -/
def deriveRow (r : RawRow) : Row :=
  { arrival := r.arrival, departure := r.departure, rate := r.rate,
    roomType := r.roomType, guests := r.guests, room := r.room,
    nights := r.departure - r.arrival,
    revenue := r.rate * ((r.departure - r.arrival : ℤ) : ℚ) }

/-- Lines 165-172: drop rows with `Departure <= Arrival` (returning the count
of dropped rows as the warning surfaced to the user), then compute the
derived columns on the survivors. -/
def validDerive (rs : List RawRow) : List Row × Nat :=
  ((rs.filter (fun r => decide (r.arrival < r.departure))).map deriveRow,
   (rs.filter (fun r => decide (r.departure ≤ r.arrival))).length)

/-- Insertion into a sorted list of rates. -/
def insertSorted (x : ℚ) : List ℚ → List ℚ
  | [] => [x]
  | y :: ys => if x ≤ y then x :: y :: ys else y :: insertSorted x ys

/-- Insertion sort of the rate column (ascending), as `quantile` sorts. -/
def sortRates (l : List ℚ) : List ℚ := l.foldr insertSorted []

/-- Percentile computation, `Series.quantile(q)`, with the pandas default
linear interpolation: with
sorted values `v_0 .. v_(n-1)` and position `p = q*(n-1)`, the result is
`v_⌊p⌋ + (p - ⌊p⌋) * (v_(⌊p⌋+1) - v_⌊p⌋)` (0 on an empty series, where
pandas would give NaN — the pipeline never reaches that case with rows). -/
def quantile (l : List ℚ) (q : ℚ) : ℚ :=
  let s := sortRates l
  if s.length = 0 then 0
  else
    let pos : ℚ := q * ((s.length : ℚ) - 1)
    let i : ℕ := (⌊pos⌋).toNat
    let frac : ℚ := pos - (⌊pos⌋ : ℚ)
    let lo := s.getD i 0
    let hi := s.getD (i + 1) lo
    lo + frac * (hi - lo)

/-- Lines 178-180: compute the 1st and 99th percentile of `Daily Rate` over
the post-validation dataset and keep exactly the rows whose rate lies in the
closed interval `[q1, q99]`. -/
def trimOutliers (rows : List Row) : List Row :=
  let q1 := quantile (rows.map Row.rate) (1/100)
  let q99 := quantile (rows.map Row.rate) (99/100)
  rows.filter (fun r => decide (q1 ≤ r.rate) && decide (r.rate ≤ q99))

/-- The function `load_dataframe` after renaming and date parsing
(lines 161-182):
validation, derivation, and outlier trim, producing the Canonical Table and
the invalid-date warning count. -/
def load_dataframe (rs : List RawRow) : List Row × Nat :=
  (trimOutliers (validDerive rs).1, (validDerive rs).2)

/-! ## Filter engine (src/app.py lines 265-279) -/

/-- A guest-count multiselect entry: the options list mixes the string
sentinel `"Todos"` with the numeric guest counts of the data. -/
inductive GuestSel where
  | todos
  | count (n : ℤ)
deriving DecidableEq, Repr

/-- The sidebar filter parameters: the date range (`none` models
`len(date_range) != 2`, i.e. an incomplete range-picker state), the
room-type selection (the sentinel is the literal string `"Todos"`) and the
guest-count selection. -/
structure FilterParams where
  dateRange : Option (ℤ × ℤ)
  selectedRoomTypes : List String
  selectedGuests : List GuestSel
deriving Repr

/-- Lines 268-273: keep rows whose arrival date is within the inclusive
range; skipped when the widget did not return two dates. -/
def filterByDate (p : Option (ℤ × ℤ)) (rows : List Row) : List Row :=
  match p with
  | some (s, e) => rows.filter (fun r => decide (s ≤ r.arrival) && decide (r.arrival ≤ e))
  | none => rows

/-- Lines 275-276: `if "Todos" not in selected_room_types and
selected_room_types:` — the membership filter runs only when the selection
is nonempty and lacks the sentinel. -/
def filterByRoomType (sel : List String) (rows : List Row) : List Row :=
  if sel.contains "Todos" = false ∧ sel ≠ [] then
    rows.filter (fun r => sel.contains r.roomType)
  else rows

/-- Lines 278-279: the same guard for the guest-count selection. -/
def filterByGuests (sel : List GuestSel) (rows : List Row) : List Row :=
  if sel.contains GuestSel.todos = false ∧ sel ≠ [] then
    rows.filter (fun r => sel.contains (GuestSel.count r.guests))
  else rows

/-- Lines 265-279: `df_filtered`, the Filtered Table, as the three filter
stages applied in program order to the Canonical Table. -/
def df_filtered (p : FilterParams) (df : List Row) : List Row :=
  filterByGuests p.selectedGuests (filterByRoomType p.selectedRoomTypes (filterByDate p.dateRange df))

/-! ## KPI aggregation (src/app.py lines 282-287) -/

/-- Column mean, `Series.mean`: `none` models pandas NaN on an empty series. -/
def seriesMean (l : List ℚ) : Option ℚ :=
  if l.length = 0 then none else some (l.sum / (l.length : ℚ))

/-- Line 282: `total_reservations = len(df_filtered)`. -/
def total_reservations (fl : List Row) : ℕ := fl.length

/-- Line 283: `total_revenue = df_filtered["Revenue"].sum()` (0 on empty). -/
def total_revenue (fl : List Row) : ℚ := (fl.map Row.revenue).sum

/-- Line 284: `avg_daily_rate = df_filtered["Daily Rate"].mean()`. -/
def avg_daily_rate (fl : List Row) : Option ℚ := seriesMean (fl.map Row.rate)

/-- Line 285: `avg_length_stay = df_filtered["Nights"].mean()`. -/
def avg_length_stay (fl : List Row) : Option ℚ :=
  seriesMean (fl.map (fun r => (r.nights : ℚ)))

/-- Line 286: `occupancy_rate = len(df_filtered) / len(df) * 100 if len(df) > 0
else 0` — a percentage. -/
def occupancy_rate (df fl : List Row) : ℚ :=
  if 0 < df.length then (fl.length : ℚ) / (df.length : ℚ) * 100 else 0

/-- The spec's occupancy ratio: `|Filtered| / |Canonical|` when the Canonical
Table is nonempty, else 0 (the code displays this ratio scaled by 100). -/
def occupancy_ratio (df fl : List Row) : ℚ :=
  if 0 < df.length then (fl.length : ℚ) / (df.length : ℚ) else 0

/-- Distinct room identifiers, `df_filtered["Room"].nunique()`. -/
def nuniqueRooms (fl : List Row) : ℕ := (fl.map Row.room).dedup.length

/-- Line 287: `revpar = total_revenue / nunique(Room) if nunique(Room) > 0
else 0`. -/
def revpar (fl : List Row) : ℚ :=
  if 0 < nuniqueRooms fl then total_revenue fl / (nuniqueRooms fl : ℚ) else 0

/-! ## Insight derivation (src/app.py lines 461-476) -/

/-- The group keys of `groupby("Room Type")` (first-occurrence order; pandas
sorts keys, which does not affect emptiness or the located extremum value). -/
def roomTypeKeys (fl : List Row) : List String := (fl.map Row.roomType).dedup

/-- Revenue summed within one room-type group. -/
def groupSumRevenue (fl : List Row) (t : String) : ℚ :=
  total_revenue (fl.filter (fun r => r.roomType == t))

/-- Mean daily rate within one room-type group (`none` on an empty group,
which cannot occur for an actual key). -/
def groupMeanRate (fl : List Row) (t : String) : Option ℚ :=
  seriesMean ((fl.filter (fun r => r.roomType == t)).map Row.rate)

/-- Index of the maximum, `Series.idxmax`, over the group keys: `none`
models the `ValueError`
pandas raises on an empty series. -/
def idxmaxBy (f : String → ℚ) : List String → Option String
  | [] => none
  | k :: ks => some (ks.foldl (fun b x => if f b < f x then x else b) k)

/-- Index of the minimum, `Series.idxmin`, over the group keys: `none`
models the `ValueError`
pandas raises on an empty series. -/
def idxminBy (f : String → ℚ) : List String → Option String
  | [] => none
  | k :: ks => some (ks.foldl (fun b x => if f x < f b then x else b) k)

/-- Line 461: `top_room_type = df_filtered.groupby("Room Type")["Revenue"]
.sum().idxmax()`. -/
def top_room_type (fl : List Row) : Option String :=
  idxmaxBy (groupSumRevenue fl) (roomTypeKeys fl)

/-- Line 475: `lowest_adr_room = df_filtered.groupby("Room Type")
["Daily Rate"].mean().idxmin()`. -/
def lowest_adr_room (fl : List Row) : Option String :=
  idxminBy (fun t => (groupMeanRate fl t).getD 0) (roomTypeKeys fl)

/-! ## Concrete sample data

Day numbers are offsets from 2024-01-01, so 2024-01-01 ↦ 0, 2024-01-03 ↦ 2,
2024-01-05 ↦ 4, 2024-01-04 ↦ 3, 2024-02-01 ↦ 31, 2024-02-02 ↦ 32. -/

/-- Scenario row 1: arrival 2024-01-01, departure 2024-01-03, rate 100. -/
def sampleA : RawRow := ⟨0, 2, 100, "Std", 2, 101⟩

/-- Scenario row 2: arrival 2024-01-05, departure 2024-01-04, rate 200
(invalid order). -/
def sampleB : RawRow := ⟨4, 3, 200, "Std", 2, 102⟩

/-- Scenario row 3: arrival 2024-02-01, departure 2024-02-02, rate 150. -/
def sampleC : RawRow := ⟨31, 32, 150, "Std", 2, 103⟩

/-- A valid row with daily rate 120, strictly between the interpolated
percentiles of the rate set {100, 120, 150}. -/
def sampleMid : RawRow := ⟨10, 12, 120, "Std", 2, 104⟩

/-- Normalized headers of an upload that lacks `Daily Rate` and all of its
synonyms while matching the other five concepts. -/
def headersNoRate : List String :=
  ["Arrival Date", "Departure Date", "Room Type", "No Of Guests", "Room"]

/-- The raw header row of the aliasing scenario. -/
def headerScenario : List String :=
  ["Check-In", "Check-Out", "ADR", "Type", "Pax", "Quarto"]

/-! ## Helper lemmas -/

/-- The date filter only discards rows. -/
lemma filterByDate_sublist (p : Option (ℤ × ℤ)) (rows : List Row) :
    (filterByDate p rows).Sublist rows := by
  cases p with
  | none => exact List.Sublist.refl rows
  | some q =>
    obtain ⟨s, e⟩ := q
    exact List.filter_sublist rows

/-- The room-type filter only discards rows. -/
lemma filterByRoomType_sublist (sel : List String) (rows : List Row) :
    (filterByRoomType sel rows).Sublist rows := by
  unfold filterByRoomType
  split
  · exact List.filter_sublist rows
  · exact List.Sublist.refl rows

/-- The guest-count filter only discards rows. -/
lemma filterByGuests_sublist (sel : List GuestSel) (rows : List Row) :
    (filterByGuests sel rows).Sublist rows := by
  unfold filterByGuests
  split
  · exact List.filter_sublist rows
  · exact List.Sublist.refl rows

/-- The Filtered Table is a sublist of the Canonical Table. -/
lemma df_filtered_sublist (p : FilterParams) (df : List Row) :
    (df_filtered p df).Sublist df :=
  ((filterByGuests_sublist _ _).trans (filterByRoomType_sublist _ _)).trans
    (filterByDate_sublist _ _)

/-- The outlier trim only discards rows. -/
lemma trimOutliers_sublist (rows : List Row) :
    (trimOutliers rows).Sublist rows := by
  unfold trimOutliers
  exact List.filter_sublist rows

/-- Bridge between the boolean `contains` used by the code's membership
tests and propositional list membership. -/
lemma contains_eq_true_iff (cols : List String) (a : String) :
    cols.contains a = true ↔ a ∈ cols :=
  List.elem_iff

/-- Every row of the Canonical Table is the derivation of a raw row that
passed the date-order validation. -/
lemma mem_load_dataframe {rs : List RawRow} {r : Row}
    (h : r ∈ (load_dataframe rs).1) :
    ∃ a : RawRow, a ∈ rs ∧ a.arrival < a.departure ∧ r = deriveRow a := by
  have h1 : r ∈ (validDerive rs).1 := (trimOutliers_sublist _).subset h
  simp only [validDerive, List.mem_map, List.mem_filter, decide_eq_true_eq] at h1
  obtain ⟨a, ⟨ha, hlt⟩, rfl⟩ := h1
  exact ⟨a, ha, hlt, rfl⟩

/-! ## Claim theorems

Batteries marks the rational-number operations irreducible; reopen them so
that concrete pipeline runs reduce under `decide`. -/

unseal Rat.add Rat.mul Rat.inv Rat.sub Rat.ofScientific

/-- C1, counterexample: with a one-row Canonical Table, a date range covering
the row and the sentinel selected for guests, an *empty* explicit room-type
selection yields a non-empty Filtered Table — the claim that an empty
explicit selection yields an empty Filtered Table is false: the guard
`if "Todos" not in sel and sel:` skips the membership filter when the
selection is empty. -/
theorem empty_selection_yields_nonempty_table :
    df_filtered ⟨some (0, 31), [], [GuestSel.todos]⟩ [deriveRow sampleA] ≠ [] := by
  decide

/-- C1, amended: for either categorical dimension, selecting the `"Todos"`
sentinel *or* leaving the selection empty leaves that dimension
unrestricted (the filter stage returns its input unchanged). -/
theorem sentinel_or_empty_selection_unrestricted (rows : List Row)
    (rsel : List String) (gsel : List GuestSel) :
    (rsel.contains "Todos" = true ∨ rsel = [] → filterByRoomType rsel rows = rows) ∧
    (gsel.contains GuestSel.todos = true ∨ gsel = [] → filterByGuests gsel rows = rows) := by
  constructor
  · intro h
    unfold filterByRoomType
    rw [if_neg]
    rintro ⟨hc, hne⟩
    rcases h with h | h
    · rw [h] at hc
      exact Bool.true_eq_false.mp hc
    · exact hne h
  · intro h
    unfold filterByGuests
    rw [if_neg]
    rintro ⟨hc, hne⟩
    rcases h with h | h
    · rw [h] at hc
      exact Bool.true_eq_false.mp hc
    · exact hne h

/-- C1, witness for the amended theorem at concrete inputs: the sentinel
room-type selection and the empty guest selection both leave a one-row
table unchanged. -/
theorem sentinel_or_empty_selection_unrestricted_witness :
    filterByRoomType ["Todos"] [deriveRow sampleA] = [deriveRow sampleA] ∧
    filterByGuests ([] : List GuestSel) [deriveRow sampleA] = [deriveRow sampleA] :=
  ⟨(sentinel_or_empty_selection_unrestricted [deriveRow sampleA] ["Todos"] []).1
      (Or.inl (by decide)),
   (sentinel_or_empty_selection_unrestricted [deriveRow sampleA] ["Todos"] []).2
      (Or.inr rfl)⟩

/-- C2, counterexample: on an empty Filtered Table the mean daily rate and
the mean nights are pandas NaN (modelled `none`), not 0 — so not all six
KPIs resolve to 0. -/
theorem empty_table_means_are_nan :
    avg_daily_rate ([] : List Row) ≠ some 0 ∧
    avg_length_stay ([] : List Row) ≠ some 0 ∧
    avg_daily_rate ([] : List Row) = none ∧
    avg_length_stay ([] : List Row) = none := by
  decide

/-- C2, amended: on an empty Filtered Table the KPI aggregation never
raises — all six KPIs are defined — and total revenue, reservation count,
occupancy rate and RevPAR resolve to 0, while mean daily rate and mean
nights resolve to NaN (`none`), not 0. -/
theorem empty_table_kpis (df : List Row) :
    total_revenue [] = 0 ∧
    total_reservations [] = 0 ∧
    avg_daily_rate [] = none ∧
    avg_length_stay [] = none ∧
    occupancy_rate df [] = 0 ∧
    revpar [] = 0 := by
  refine ⟨rfl, rfl, rfl, rfl, ?_, rfl⟩
  simp [occupancy_rate]

/-- C3, counterexample: on the 3-row scenario input the load pipeline
produces an *empty* Canonical Table, not a 2-row one: the percentile trim
(with linear interpolation, p1 = 100.5 and p99 = 149.5 over the two
surviving rates 100 and 150) removes both remaining rows. -/
theorem scenario_canonical_table_not_two_rows :
    (load_dataframe [sampleA, sampleB, sampleC]).1.length = 0 ∧
    (load_dataframe [sampleA, sampleB, sampleC]).1.length ≠ 2 := by
  decide

/-- C3, amended: on the 3-row scenario input the validation stage drops the
invalid-order row (warning count 1) and the two surviving rows carry total
revenue 350 and average nights 3/2 — but the subsequent outlier trim
removes both of them, so the final Canonical Table is empty. -/
theorem scenario_pipeline_behavior :
    (validDerive [sampleA, sampleB, sampleC]).1.length = 2 ∧
    (validDerive [sampleA, sampleB, sampleC]).2 = 1 ∧
    total_revenue (validDerive [sampleA, sampleB, sampleC]).1 = 350 ∧
    avg_length_stay (validDerive [sampleA, sampleB, sampleC]).1 = some (3 / 2) ∧
    (load_dataframe [sampleA, sampleB, sampleC]).1 = [] := by
  decide

/-- C4, counterexample: on a 2-row post-validation dataset (rates 100 and
150) the trim removes both rows — more than 2% of the rows. -/
theorem trim_two_percent_bound_fails :
    ¬ ((([deriveRow sampleA, deriveRow sampleC].length : ℚ) -
          ((trimOutliers [deriveRow sampleA, deriveRow sampleC]).length : ℚ)) ≤
        (2 / 100) * ([deriveRow sampleA, deriveRow sampleC].length : ℚ)) := by
  decide

/-- C4, amended: the trim keeps exactly the rows whose daily rate lies in
the closed interval [p1, p99]; in particular it never removes a row whose
rate is strictly inside the interval, and every kept row lies in the
interval. The at-most-2% bound does not hold in general (small datasets can
lose every row to the interpolated percentiles). -/
theorem trim_never_removes_strict_interior (rows : List Row) (r : Row)
    (hmem : r ∈ rows)
    (h1 : quantile (rows.map Row.rate) (1 / 100) < r.rate)
    (h99 : r.rate < quantile (rows.map Row.rate) (99 / 100)) :
    r ∈ trimOutliers rows ∧
    ∀ s ∈ trimOutliers rows,
      quantile (rows.map Row.rate) (1 / 100) ≤ s.rate ∧
      s.rate ≤ quantile (rows.map Row.rate) (99 / 100) := by
  constructor
  · simp only [trimOutliers, List.mem_filter, Bool.and_eq_true, decide_eq_true_eq]
    exact ⟨hmem, le_of_lt h1, le_of_lt h99⟩
  · intro s hs
    simp only [trimOutliers, List.mem_filter, Bool.and_eq_true, decide_eq_true_eq] at hs
    exact hs.2

/-- C4, witness for the amended theorem: in the 3-row dataset with rates
{100, 120, 150} the middle row's rate 120 lies strictly inside
[p1, p99] = [100.4, 149.4] and the row is kept by the trim. -/
theorem trim_never_removes_strict_interior_witness :
    deriveRow sampleMid ∈
      trimOutliers [deriveRow sampleA, deriveRow sampleMid, deriveRow sampleC] :=
  (trim_never_removes_strict_interior
      [deriveRow sampleA, deriveRow sampleMid, deriveRow sampleC]
      (deriveRow sampleMid) (by decide) (by decide) (by decide)).1

/-- C5: for every header set, if some canonical concept has no matching
alias among the (normalized) headers, resolution aborts with a
`missingColumns` diagnostic carrying exactly the concepts without a match
and the headers actually present, and no table is produced. -/
theorem missing_concepts_abort_load (cols : List String)
    (h : missing_columns cols ≠ []) :
    resolveColumns cols =
      .error (.missingColumns (missing_columns cols) cols) ∧
    ∀ c, c ∈ missing_columns cols ↔
      ∃ al, (c, al) ∈ aliases ∧ ∀ a ∈ al, a ∉ cols := by
  constructor
  · simp only [resolveColumns, if_neg h]
  · intro c
    simp only [missing_columns, List.mem_map, List.mem_filter,
      Option.isNone_iff_eq_none, first_present, List.find?_eq_none,
      contains_eq_true_iff]
    constructor
    · rintro ⟨⟨c', al⟩, ⟨hmem, hnone⟩, rfl⟩
      exact ⟨al, hmem, hnone⟩
    · rintro ⟨al, hmem, hall⟩
      exact ⟨(c, al), ⟨hmem, hall⟩, rfl⟩

/-- C5, witness: an upload matching every concept except `Daily Rate` (none
of whose synonyms is present) aborts naming exactly `"Daily Rate"` and
listing the five headers present. -/
theorem missing_concepts_abort_load_witness :
    missing_columns headersNoRate ≠ [] ∧
    missing_columns headersNoRate = ["Daily Rate"] ∧
    resolveColumns headersNoRate =
      .error (.missingColumns (missing_columns headersNoRate) headersNoRate) :=
  ⟨by decide, by decide,
   (missing_concepts_abort_load headersNoRate (by decide)).1⟩

/-- C6: every row of the Canonical Table satisfies exactly
`nights = departure - arrival` (whole days) and
`revenue = daily_rate * nights`. -/
theorem canonical_row_derived_metrics (rs : List RawRow) (r : Row)
    (h : r ∈ (load_dataframe rs).1) :
    r.nights = r.departure - r.arrival ∧ r.revenue = r.rate * (r.nights : ℚ) := by
  obtain ⟨a, -, -, rfl⟩ := mem_load_dataframe h
  exact ⟨rfl, rfl⟩

/-- C6, witness: the derived row of the valid scenario row survives a
one-row load and satisfies both identities. -/
theorem canonical_row_derived_metrics_witness :
    (deriveRow sampleA).nights =
      (deriveRow sampleA).departure - (deriveRow sampleA).arrival ∧
    (deriveRow sampleA).revenue =
      (deriveRow sampleA).rate * ((deriveRow sampleA).nights : ℚ) :=
  canonical_row_derived_metrics [sampleA] (deriveRow sampleA) (by decide)

/-- C7: the header row `["Check-In","Check-Out","ADR","Type","Pax","Quarto"]`,
after strip + title-case, binds all six canonical concepts through the
priority-ordered alias scan, and renaming maps the six headers to their
canonical names. -/
theorem alias_scenario_resolves_all :
    resolveColumns (headerScenario.map normalizeHeader) =
      .ok [("Check-In", "Arrival Date"), ("Check-Out", "Departure Date"),
           ("Adr", "Daily Rate"), ("Type", "Room Type"),
           ("Pax", "No Of Guests"), ("Quarto", "Room")] ∧
    renameHeaders (column_mapping (headerScenario.map normalizeHeader))
        (headerScenario.map normalizeHeader) =
      ["Arrival Date", "Departure Date", "Daily Rate", "Room Type",
       "No Of Guests", "Room"] := by
  decide

/-- C8: for every Canonical Table and filter selection the occupancy ratio
(`|Filtered| / |Canonical|` when the Canonical Table is non-empty, else 0)
lies in [0, 1]; the code's `occupancy_rate` is this ratio scaled to a
percentage. -/
theorem occupancy_ratio_in_unit_interval (df : List Row) (p : FilterParams) :
    0 ≤ occupancy_ratio df (df_filtered p df) ∧
    occupancy_ratio df (df_filtered p df) ≤ 1 ∧
    occupancy_rate df (df_filtered p df) = 100 * occupancy_ratio df (df_filtered p df) := by
  have hlen : (df_filtered p df).length ≤ df.length :=
    (df_filtered_sublist p df).length_le
  refine ⟨?_, ?_, ?_⟩
  · unfold occupancy_ratio
    split
    · positivity
    · exact le_refl 0
  · unfold occupancy_ratio
    split
    · rename_i hpos
      rw [div_le_one (by exact_mod_cast hpos)]
      exact_mod_cast hlen
    · exact zero_le_one
  · unfold occupancy_rate occupancy_ratio
    split
    · ring
    · ring

/-- C9: on an empty Filtered Table the insight computations have no result:
the grouped `idxmax` / `idxmin` (best-performer and opportunity) are
unguarded and yield the empty-series failure (`none` models the pandas
`ValueError`) instead of an explicit no-data state. -/
theorem insights_fail_on_empty_table :
    top_room_type ([] : List Row) = none ∧
    lowest_adr_room ([] : List Row) = none := by
  decide

/-- C10: every row of the Canonical Table has `nights ≥ 1` (the validation
keeps exactly the rows with `departure > arrival`, and nights is their
whole-day difference), and the Filter Engine preserves this: every row of
the Filtered Table is a row of the Canonical Table. -/
theorem canonical_nights_ge_one (rs : List RawRow) (p : FilterParams) (r : Row) :
    (r ∈ (load_dataframe rs).1 → 1 ≤ r.nights) ∧
    (r ∈ df_filtered p (load_dataframe rs).1 →
      r ∈ (load_dataframe rs).1 ∧ 1 ≤ r.nights) := by
  have main : r ∈ (load_dataframe rs).1 → 1 ≤ r.nights := by
    intro h
    obtain ⟨a, -, hlt, rfl⟩ := mem_load_dataframe h
    simp only [deriveRow]
    omega
  refine ⟨main, fun h => ?_⟩
  have hmem : r ∈ (load_dataframe rs).1 :=
    (df_filtered_sublist p (load_dataframe rs).1).subset h
  exact ⟨hmem, main hmem⟩

/-- C10, witness: with a one-row load and the all-sentinel filter, the
surviving row is in both tables and has `nights = 2 ≥ 1`. -/
theorem canonical_nights_ge_one_witness :
    deriveRow sampleA ∈ (load_dataframe [sampleA]).1 ∧
    1 ≤ (deriveRow sampleA).nights ∧
    deriveRow sampleA ∈
      df_filtered ⟨some (0, 31), ["Todos"], [GuestSel.todos]⟩ (load_dataframe [sampleA]).1 :=
  ⟨by decide,
   (canonical_nights_ge_one [sampleA]
      ⟨some (0, 31), ["Todos"], [GuestSel.todos]⟩ (deriveRow sampleA)).1 (by decide),
   by decide⟩

end ReservationsApp
